import Mathlib

/-!
Verification of the SponsorBot schedule bot.

The repository holds several near-duplicate variants of the same Discord
bot.  The most evolved variant (src/unnamed/part_000) and the oldest
variant kept in src/index.js are embedded below; the reminder-date /
monthly-override / delivery-mode selector described by the design notes
belongs to a repository variant whose file is not available, and is
modelled from the written design in the SpecModel namespace.
-/

namespace SponsorBot

/-! ### Cells, headers and column lookup (shared by all variants)

A fetched range is a list of rows, each row a list of string cells.  A
row may be shorter than the header (trailing empty cells are omitted by
the data source).  JS `header.indexOf(name)` yields -1 when the column
is absent; reading `row[-1]` or past the end of a row yields
`undefined`.  We model a possibly-absent column index as `Option Nat`
and a possibly-`undefined` cell as `Option String`. -/

/-- Whitespace as trimmed by JS `String.prototype.trim` (the characters that
occur in the data). -/
def isWS (c : Char) : Bool := c == ' ' || c == '\t' || c == '\n' || c == '\r'

/-- JS `s.trim()`: leading and trailing whitespace removed. -/
def jsTrim (s : String) : String :=
  String.mk (((s.data.dropWhile isWS).reverse.dropWhile isWS).reverse)

/-- ASCII lowering of one character, as JS `toLowerCase` acts on the data. -/
def lowerChar (c : Char) : Char :=
  if 65 ≤ c.toNat ∧ c.toNat ≤ 90 then Char.ofNat (c.toNat + 32) else c

/-- JS `s.toLowerCase()`. -/
def jsToLower (s : String) : String := String.mk (s.data.map lowerChar)

/-- JS `header.indexOf(name)`: index of the first exact match, else absent. -/
def colIdx (header : List String) (name : String) : Option Nat :=
  header.findIdx? (fun h => h == name)

/-- JS `row[c]` where `c` may be -1 (absent column): `undefined` becomes `none`. -/
def cellAt (row : List String) (c : Option Nat) : Option String :=
  c.bind (fun i => row.get? i)

/-- JS `(row[c] || "")`: both `undefined` and `""` are falsy and give `""`. -/
def cellD (row : List String) (c : Option Nat) : String :=
  (cellAt row c).getD ""

/-- JS `(row[c] || dflt)`: a falsy cell (`undefined` or `""`) gives the default. -/
def cellOr (row : List String) (c : Option Nat) (dflt : String) : String :=
  match cellAt row c with
  | none => dflt
  | some s => if s = "" then dflt else s

/-! ### The schedule cache

`scheduleCache` is a JS object mapping a guild id to the ordered list of
its items; we model it as an association list in key-insertion order. -/

abbrev Cache (α : Type) : Type := List (String × List α)

/-- JS `if (!cache[g]) cache[g] = []; cache[g].push(it)`. -/
def cachePush {α : Type} : Cache α → String → α → Cache α
  | [], g, it => [(g, [it])]
  | (k, l) :: rest, g, it =>
      if k = g then (k, l ++ [it]) :: rest else (k, l) :: cachePush rest g it

/-- JS `cache[g] || []`. -/
def lookupCache {α : Type} (g : String) : Cache α → List α
  | [] => []
  | (k, l) :: rest => if k = g then l else lookupCache g rest

end SponsorBot

namespace SponsorBot.Part000

/-! ### The src/unnamed/part_000 variant -/

/-- One spreadsheet row surviving validation, as pushed into the cache by
`fetchScheduleData` of src/unnamed/part_000 (the guild id is the cache key). -/
structure Item where
  creator : String
  channel : String
  sponsor : String
  draftDeadline : String
  uploadDeadline : String
  month : String
  year : String
  shouldNotify : String
  status : String
  statusSend : String
  statusMessage : String
  ignore : String
  type : String
  currentRowNumber : Nat
deriving DecidableEq

/-- The record built for a row that passed validation (part_000 lines 97-138). -/
def mkItem (header : List String) (idx : Nat) (row : List String) : Item :=
  { creator := cellOr row (colIdx header "Creator") "Unknown Creator"
  , channel := cellD row (colIdx header "Channel")
  , sponsor := cellOr row (colIdx header "Sponsor") "N/A"
  , draftDeadline := cellOr row (colIdx header "Draft Deadline - Disc. Date") "N/A"
  , uploadDeadline := cellOr row (colIdx header "Upload Deadline - Disc. Date") "N/A"
  , month := cellOr row (colIdx header "Month") "N/A"
  , year := cellOr row (colIdx header "Year") "N/A"
  , shouldNotify := cellOr row (colIdx header "Should Notify") "1"
  , status := jsTrim (cellD row (colIdx header "status"))
  , statusSend := jsTrim (cellD row (colIdx header "Status Send"))
  , statusMessage := jsTrim (cellD row (colIdx header "Status Message"))
  , ignore := jsTrim (cellD row (colIdx header "ignore"))
  , type := jsTrim (cellD row (colIdx header "Type"))
  , currentRowNumber := idx }

/-- Row handling of the fetch loop: `if (!row[colGuildId] || !row[colChannel]) continue;`
else push a record keyed by the trimmed guild id. -/
def normalizeRow (header : List String) (idx : Nat) (row : List String) :
    Option (String × Item) :=
  if cellD row (colIdx header "guild ID") = "" ∨ cellD row (colIdx header "Channel") = ""
  then none
  else some (jsTrim (cellD row (colIdx header "guild ID")), mkItem header idx row)

/-- The fetch loop over `dataRows.entries()`, pushing into the (reset) cache. -/
def buildCache (header : List String) : List (Nat × List String) → Cache Item → Cache Item
  | [], c => c
  | p :: rest, c =>
      match normalizeRow header p.1 p.2 with
      | none => buildCache header rest c
      | some (g, it) => buildCache header rest (cachePush c g it)

/-- `fetchScheduleData` of part_000 as a cache transformer: `res = none` models a
throwing fetch (the catch leaves the cache as it was); an empty row set
returns early; otherwise the cache is reset and rebuilt from the data rows. -/
def fetchScheduleData (old : Cache Item) (res : Option (List (List String))) : Cache Item :=
  match res with
  | none => old
  | some [] => old
  | some (header :: dataRows) => buildCache header dataRows.enum []

/-- `getStatusColor` (part_000 lines 172-183). -/
def getStatusColor (s : String) : String :=
  if jsToLower s = "pending" then "e82020"
  else if jsToLower s = "draft" then "e8db20"
  else if jsToLower s = "complete" then "63e820"
  else "e8db20"

/-- JS `String.replace("R", "D")` replaces only the first occurrence. -/
def replFirstRD : List Char → List Char
  | [] => []
  | c :: cs => if c = 'R' then 'D' :: cs else c :: replFirstRD cs

def replaceRD (s : String) : String := String.mk (replFirstRD s.data)

/-- The rendered notification payload: a color, a title and named fields. -/
structure Embed where
  color : String
  title : String
  fields : List (String × String)
deriving DecidableEq

/-- The field list built for one item (part_000 lines 203-222): Message and
Type appear only when non-empty (JS truthiness on a string). -/
def embedFields (item : Item) : List (String × String) :=
  [("Status", item.status)]
  ++ (if item.statusMessage = "" then [] else [("Message", item.statusMessage)])
  ++ (if item.type = "" then [] else [("Type", item.type)])
  ++ [ ("Draft Deadline", replaceRD item.draftDeadline)
     , (" ", item.draftDeadline)
     , ("Upload Deadline", replaceRD item.uploadDeadline)
     , (" ", item.uploadDeadline) ]

def embedOf (item : Item) : Embed :=
  { color := getStatusColor item.status
  , title := "Sponsor: " ++ item.sponsor
  , fields := embedFields item }

/-- The reminder filter of `createEmbedsFromData` (part_000 lines 197-199). -/
def validNotify (i : Item) : Bool :=
  i.shouldNotify == "1" && i.ignore == "0" && i.statusSend == "1"

/-- The items selected by the timer-driven reminder path. -/
def modeAItems (items : List Item) : List Item :=
  items.filter validNotify

/-- `createEmbedsFromData` (part_000 lines 196-229). -/
def createEmbedsFromData (items : List Item) : List Embed :=
  (modeAItems items).map embedOf

/-- `createEmbedsIgnoreNotify` (part_000 lines 236-268). -/
def createEmbedsIgnoreNotify (items : List Item) : List Embed :=
  let valid := items.filter (fun i => i.ignore == "0")
  if valid.isEmpty then [] else valid.map embedOf

/-- The month/year filter of `createScheduleEmbeds` (part_000 lines 287-297). -/
def browseKeep (monthLower yearLower : String) (i : Item) : Bool :=
  if i.ignore == "1" then false
  else (monthLower == "all" || jsToLower i.month == monthLower)
    && (yearLower == "all" || jsToLower i.year == yearLower)

/-- `createScheduleEmbeds` (part_000 lines 276-300); the global cache is passed
explicitly. -/
def createScheduleEmbeds (cache : Cache Item) (guildId monthFilter yearFilter : String) :
    List Embed :=
  let guildData := lookupCache guildId cache
  if guildData.isEmpty then []
  else createEmbedsIgnoreNotify (guildData.filter (browseKeep (jsToLower monthFilter) (jsToLower yearFilter)))

/-- The items the browse command ends up rendering: the month/year filter of
`createScheduleEmbeds` composed with the ignore filter of
`createEmbedsIgnoreNotify`. -/
def scheduleItems (guildData : List Item) (monthFilter yearFilter : String) : List Item :=
  (guildData.filter (browseKeep (jsToLower monthFilter) (jsToLower yearFilter))).filter
    (fun i => i.ignore == "0")

end SponsorBot.Part000

namespace SponsorBot.IndexV1

/-! ### The first src/index.js variant (lines 1-494)

Its fetch loop reads `row[colStatus].trim()` (and likewise for
`Status Send`, `ignore` and `Type`) without guarding against an absent
cell, so a validated row whose cell is `undefined` throws a TypeError;
the surrounding try/catch then abandons the loop, leaving the already
reset and partially repopulated cache in place. -/

/-- One cached row of the index.js variant (no statusMessage field). -/
structure ItemIx where
  creator : String
  channel : String
  sponsor : String
  draftDeadline : String
  uploadDeadline : String
  month : String
  year : String
  shouldNotify : String
  status : String
  statusSend : String
  ignore : String
  type : String
  currentRowNumber : Nat
deriving DecidableEq

/-- Row handling of the index.js fetch loop: skip on missing guild/channel,
throw (model: error) when the status, Status Send, ignore or Type cell is
`undefined`, else push. -/
def rowIx (header : List String) (idx : Nat) (row : List String) :
    Except Unit (Option (String × ItemIx)) :=
  if cellD row (colIdx header "guild ID") = "" ∨ cellD row (colIdx header "Channel") = ""
  then .ok none
  else
    match cellAt row (colIdx header "status"), cellAt row (colIdx header "Status Send"),
          cellAt row (colIdx header "ignore"), cellAt row (colIdx header "Type") with
    | some st, some ss, some ig, some ty =>
        .ok (some (jsTrim (cellD row (colIdx header "guild ID")),
          { creator := cellOr row (colIdx header "Creator") "Unknown Creator"
          , channel := cellD row (colIdx header "Channel")
          , sponsor := cellOr row (colIdx header "Sponsor") "N/A"
          , draftDeadline := cellOr row (colIdx header "Draft Deadline - Disc. Date") "N/A"
          , uploadDeadline := cellOr row (colIdx header "Upload Deadline - Disc. Date") "N/A"
          , month := cellOr row (colIdx header "Month") "N/A"
          , year := cellOr row (colIdx header "Year") "N/A"
          , shouldNotify := cellOr row (colIdx header "Should Notify") "1"
          , status := jsTrim st
          , statusSend := jsTrim ss
          , ignore := jsTrim ig
          , type := jsTrim ty
          , currentRowNumber := idx }))
    | _, _, _, _ => .error ()

/-- The index.js fetch loop: a thrown row stops the loop, keeping whatever was
already pushed into the freshly reset cache. -/
def buildIx (header : List String) : List (Nat × List String) → Cache ItemIx → Cache ItemIx
  | [], c => c
  | p :: rest, c =>
      match rowIx header p.1 p.2 with
      | .error _ => c
      | .ok none => buildIx header rest c
      | .ok (some (g, it)) => buildIx header rest (cachePush c g it)

/-- `fetchScheduleData` of the index.js variant as a cache transformer: a
failed fetch or an empty range keeps the old cache, but a throw inside the
row loop leaves the partially rebuilt cache. -/
def fetchIx (old : Cache ItemIx) (res : Option (List (List String))) : Cache ItemIx :=
  match res with
  | none => old
  | some [] => old
  | some (header :: dataRows) => buildIx header dataRows.enum []

end SponsorBot.IndexV1

namespace SponsorBot.SpecModel

/-! ### The reminder-date selector, modelled from the design notes -/

/-- Modelled from the spec: a calendar reference date, compared against the
`reminderDate` columns after formatting as non-zero-padded `M/D/YYYY`
(spec section 4.3 condition 4). -/
structure DateMDY where
  month : Nat
  day : Nat
  year : Nat
deriving DecidableEq

/-- Modelled from the spec: the fields of a ScheduleItem consulted by the
Mode A selector and the delivery partition (spec sections 3 and 4.3); the
variant of the bot reading the `Reminder Date`, `Reminder Date 2` and
`Reminder Type` columns is not among the available source files. -/
structure ItemR where
  destinationChannel : String
  creatorId : String
  shouldNotify : Bool
  ignoreFlag : Bool
  statusArmed : Bool
  reminderDate : String
  reminderDate2 : String
  reminderDeliveryMode : String
deriving DecidableEq

/-- Modelled from the spec: today's date formatted `M/D/YYYY`, non-zero-padded. -/
def formatMDY (t : DateMDY) : String :=
  toString t.month ++ "/" ++ toString t.day ++ "/" ++ toString t.year

/-- Modelled from the spec: Mode A conditions (1)-(3) — shouldNotify true,
ignoreFlag false, statusArmed true. -/
def baseEligible (i : ItemR) : Bool :=
  i.shouldNotify && !i.ignoreFlag && i.statusArmed

/-- Modelled from the spec: Mode A condition (4) — either reminder date equals
today's formatted date. -/
def dueMatch (t : DateMDY) (i : ItemR) : Bool :=
  i.reminderDate == formatMDY t || i.reminderDate2 == formatMDY t

/-- Modelled from the spec: the monthly override fires on the 1st or 2nd
calendar day, gated by the process-lifetime latch so it fires at most once
per run (spec section 4.3 and property P4). -/
def overrideFires (latch : Bool) (t : DateMDY) : Bool :=
  !latch && (t.day == 1 || t.day == 2)

/-- Modelled from the spec: Mode A selection over the item list for a
reference date, threading the override latch: when the override fires,
condition (4) is waived and the latch is set; otherwise strict
reminder-date matching applies and the latch is unchanged. -/
def modeASelect (latch : Bool) (t : DateMDY) (items : List ItemR) :
    List ItemR × Bool :=
  if overrideFires latch t then (items.filter baseEligible, true)
  else (items.filter (fun i => baseEligible i && dueMatch t i), latch)

/-- Modelled from the spec: items delivered as channel posts. -/
def chanPost (i : ItemR) : Bool := i.reminderDeliveryMode == "channel post"

/-- Modelled from the spec: items delivered as direct messages. -/
def privMsg (i : ItemR) : Bool := i.reminderDeliveryMode == "private message"

/-- Modelled from the spec: items of one delivery mode grouped by a
destination key, one group per distinct key. -/
def mkGroups (p : ItemR → Bool) (key : ItemR → String) (due : List ItemR) :
    List (String × List ItemR) :=
  ((due.filter p).map key).dedup.map
    (fun k => (k, due.filter (fun i => p i && key i == k)))

/-- Modelled from the spec: due `channel post` items grouped by destination
channel, one group (one outbound message) per channel. -/
def channelGroups (due : List ItemR) : List (String × List ItemR) :=
  mkGroups chanPost (fun i => i.destinationChannel) due

/-- Modelled from the spec: due `private message` items grouped by creator,
one direct message per creator. -/
def dmGroups (due : List ItemR) : List (String × List ItemR) :=
  mkGroups privMsg (fun i => i.creatorId) due

/-- All items appearing in a list of destination groups. -/
def groupItems (gs : List (String × List ItemR)) : List ItemR :=
  (gs.map Prod.snd).flatten

end SponsorBot.SpecModel

namespace SponsorBot.Part000

/-! ### Concrete data used by witnesses -/

/-- An item excluded by its ignore flag, otherwise fully notifiable. -/
def exIgnored : Item :=
  { creator := "c", channel := "general", sponsor := "Acme", draftDeadline := "d",
    uploadDeadline := "u", month := "January", year := "2025", shouldNotify := "1",
    status := "pending", statusSend := "1", statusMessage := "", ignore := "1",
    type := "", currentRowNumber := 0 }

/-- A browsable item whose notification flags are off. -/
def exBrowse : Item :=
  { creator := "c", channel := "general", sponsor := "Acme", draftDeadline := "d",
    uploadDeadline := "u", month := "January", year := "2025", shouldNotify := "0",
    status := "pending", statusSend := "0", statusMessage := "", ignore := "0",
    type := "", currentRowNumber := 0 }

end SponsorBot.Part000

namespace SponsorBot.IndexV1

/-- The pre-refresh cache content of the C4 run: one item for guild G0. -/
def exOldItem : ItemIx :=
  { creator := "c", channel := "x", sponsor := "s", draftDeadline := "d",
    uploadDeadline := "u", month := "m", year := "2025", shouldNotify := "1",
    status := "p", statusSend := "1", ignore := "0", type := "", currentRowNumber := 0 }

def exOldCache : Cache ItemIx := [("G0", [exOldItem])]

/-- A fetched range whose second data row lacks the status cell (the data
source omits trailing empty cells from a row). -/
def exBadRows : List (List String) :=
  [["guild ID", "Channel", "status", "Status Send", "ignore", "Type"],
   ["G1", "alpha", "pending", "1", "0", "spot"],
   ["G1", "beta"]]

/-- The single item the interrupted rebuild leaves in the cache. -/
def exNewItem : ItemIx :=
  { creator := "Unknown Creator", channel := "alpha", sponsor := "N/A",
    draftDeadline := "N/A", uploadDeadline := "N/A", month := "N/A", year := "N/A",
    shouldNotify := "1", status := "pending", statusSend := "1", ignore := "0",
    type := "spot", currentRowNumber := 0 }

/-- Header and row of the C6 failing input: guild and channel present,
sponsor blank, status cell (and the later cells) absent. -/
def exHeaderC6 : List String :=
  ["guild ID", "Channel", "Sponsor", "status", "Status Send", "ignore", "Type"]

def exRowC6 : List String := ["G1", "general", ""]

end SponsorBot.IndexV1

namespace SponsorBot.SpecModel

/-- A due channel-post item with reminderDate 4/10/2025. -/
def exDue : ItemR :=
  { destinationChannel := "general", creatorId := "u1", shouldNotify := true,
    ignoreFlag := false, statusArmed := true, reminderDate := "4/10/2025",
    reminderDate2 := "", reminderDeliveryMode := "channel post" }

/-- A due private-message item. -/
def exPM : ItemR :=
  { destinationChannel := "general", creatorId := "u2", shouldNotify := true,
    ignoreFlag := false, statusArmed := true, reminderDate := "4/10/2025",
    reminderDate2 := "", reminderDeliveryMode := "private message" }

end SponsorBot.SpecModel

namespace SponsorBot

/-! ### Cache lemmas -/

theorem lookupCache_cachePush {α : Type} (c : Cache α) (k g : String) (it : α) :
    lookupCache g (cachePush c k it)
      = if k = g then lookupCache g c ++ [it] else lookupCache g c := by
  induction c with
  | nil => by_cases h : k = g <;> simp [cachePush, lookupCache, h]
  | cons p rest ih =>
      obtain ⟨k2, l⟩ := p
      by_cases h1 : k2 = k
      · subst h1
        by_cases h2 : k2 = g <;> simp [cachePush, lookupCache, h2]
      · by_cases h2 : k2 = g
        · subst h2
          have h3 : ¬(k = k2) := fun h => h1 h.symm
          simp [cachePush, lookupCache, h1, h3]
        · simp [cachePush, lookupCache, h1, h2, ih]

end SponsorBot

namespace SponsorBot.Part000

/-! ### Lemmas about the part_000 fetch loop -/

/-- The per-guild content of the rebuilt cache, in source row order. -/
theorem lookupCache_buildCache (header : List String) (pairs : List (Nat × List String))
    (c : Cache Item) (g : String) :
    lookupCache g (buildCache header pairs c)
      = lookupCache g c
        ++ ((pairs.filterMap (fun p => normalizeRow header p.1 p.2)).filter
              (fun q => q.1 == g)).map Prod.snd := by
  induction pairs generalizing c with
  | nil => simp [buildCache]
  | cons p rest ih =>
      cases h : normalizeRow header p.1 p.2 with
      | none => simp [buildCache, h, ih]
      | some q =>
          obtain ⟨k, it⟩ := q
          by_cases hg : k = g
          · subst hg
            simp [buildCache, h, ih, lookupCache_cachePush]
          · simp [buildCache, h, ih, lookupCache_cachePush, hg]

/-- A surviving row always carries the record built by `mkItem`. -/
theorem normalizeRow_some_snd {header : List String} {idx : Nat} {row : List String}
    {q : String × Item} (h : normalizeRow header idx row = some q) :
    q.2 = mkItem header idx row := by
  unfold normalizeRow at h
  split at h
  · exact absurd h (by simp)
  · simp only [Option.some.injEq] at h
    rw [← h]

end SponsorBot.Part000

namespace SponsorBot.Part000

/-! ### Browse-path lemmas -/

/-- The two browse filters collapse to one predicate over ignore, month and year. -/
theorem scheduleItems_eq_filter (gd : List Item) (m y : String) :
    scheduleItems gd m y
      = gd.filter (fun i => i.ignore == "0"
          && (jsToLower m == "all" || jsToLower i.month == jsToLower m)
          && (jsToLower y == "all" || jsToLower i.year == jsToLower y)) := by
  unfold scheduleItems
  rw [List.filter_filter]
  apply List.filter_congr
  intro i _
  cases h1 : (i.ignore == "1") with
  | true =>
      have h2 : i.ignore = "1" := by exact eq_of_beq h1
      simp [browseKeep, h1, h2]
  | false =>
      simp only [browseKeep, h1, Bool.false_eq_true, if_false]
      ac_rfl

/-- The browse command output is the pointwise rendering of `scheduleItems`. -/
theorem createScheduleEmbeds_eq (cache : Cache Item) (g m y : String) :
    createScheduleEmbeds cache g m y
      = (scheduleItems (lookupCache g cache) m y).map embedOf := by
  unfold createScheduleEmbeds scheduleItems createEmbedsIgnoreNotify
  by_cases hgd : (lookupCache g cache).isEmpty
  · have h0 : lookupCache g cache = [] := by simpa [List.isEmpty_iff] using hgd
    simp [h0]
  · simp only [hgd, Bool.false_eq_true, if_false]
    by_cases hv : (((lookupCache g cache).filter
        (browseKeep (jsToLower m) (jsToLower y))).filter (fun i => i.ignore == "0")).isEmpty
    · have h0 := List.isEmpty_iff.mp hv
      simp [hv, h0]
    · simp [hv]

/-! ### Claims settled on the part_000 variant -/

/-- C7: a data row contributes no ScheduleItem iff its guild-id or channel
cell is empty or missing; every other row contributes exactly one record,
keyed by the trimmed guild id, and each guild's cache list keeps the source
row order. -/
theorem claim_C7_row_drop (header : List String) (rows : List (List String))
    (old : Cache Item) (g : String) :
    (lookupCache g (fetchScheduleData old (some (header :: rows)))
       = (((rows.enum).filterMap (fun p => normalizeRow header p.1 p.2)).filter
            (fun q => q.1 == g)).map Prod.snd)
    ∧ (∀ idx row, normalizeRow header idx row = none
         ↔ (cellD row (colIdx header "guild ID") = ""
              ∨ cellD row (colIdx header "Channel") = ""))
    ∧ (∀ idx row, cellD row (colIdx header "guild ID") ≠ "" →
         cellD row (colIdx header "Channel") ≠ "" →
         normalizeRow header idx row
           = some (jsTrim (cellD row (colIdx header "guild ID")), mkItem header idx row)) := by
  refine ⟨?_, ?_, ?_⟩
  · show lookupCache g (buildCache header rows.enum []) = _
    rw [lookupCache_buildCache]
    simp [lookupCache]
  · intro idx row
    unfold normalizeRow
    by_cases h : cellD row (colIdx header "guild ID") = ""
        ∨ cellD row (colIdx header "Channel") = "" <;> simp [h]
  · intro idx row h1 h2
    simp [normalizeRow, h1, h2]

/-- A concrete surviving row for C7. -/
theorem claim_C7_witness :
    normalizeRow ["guild ID", "Channel"] 0 ["G1", "general"]
      = some ("G1", mkItem ["guild ID", "Channel"] 0 ["G1", "general"]) := by
  have h := (claim_C7_row_drop ["guild ID", "Channel"] [] [] "G1").2.2 0 ["G1", "general"]
    (by decide) (by decide)
  rw [h]
  decide

/-- C10: when the Status Send column is absent every cached item has an empty
statusSend, so the timer-driven reminder selection is empty for every guild;
and any item with an empty statusSend is never selected by it. -/
theorem claim_C10_statusSend_gate :
    (∀ header rows old g, colIdx header "Status Send" = none →
        createEmbedsFromData
          (lookupCache g (fetchScheduleData old (some (header :: rows)))) = [])
    ∧ (∀ (items : List Item) (i : Item), i.statusSend = "" → i ∉ modeAItems items) := by
  constructor
  · intro header rows old g hnone
    show createEmbedsFromData (lookupCache g (buildCache header rows.enum [])) = _
    rw [lookupCache_buildCache]
    simp only [lookupCache, List.nil_append]
    unfold createEmbedsFromData modeAItems
    have hfil : (((rows.enum.filterMap (fun p => normalizeRow header p.1 p.2)).filter
        (fun q => q.1 == g)).map Prod.snd).filter validNotify = [] := by
      rw [List.filter_eq_nil_iff]
      intro it hmem
      obtain ⟨q, hq, rfl⟩ := List.mem_map.mp hmem
      have hq2 := (List.mem_filter.mp hq).1
      obtain ⟨p, _, hp⟩ := List.mem_filterMap.mp hq2
      have hsnd := normalizeRow_some_snd hp
      have hss : q.2.statusSend = "" := by
        rw [hsnd]
        show jsTrim (cellD p.2 (colIdx header "Status Send")) = ""
        rw [hnone]
        rfl
      simp [validNotify, hss]
    rw [hfil]
    rfl
  · intro items i hss hmem
    have hv := (List.mem_filter.mp hmem).2
    simp [validNotify, hss] at hv

/-- A sheet without a Status Send column yields no reminder output. -/
theorem claim_C10_witness :
    createEmbedsFromData
      (lookupCache "G1"
        (fetchScheduleData [] (some [["guild ID", "Channel"], ["G1", "c"]]))) = [] :=
  claim_C10_statusSend_gate.1 ["guild ID", "Channel"] [["G1", "c"]] [] "G1" (by decide)

/-- C5: an item whose ignore flag is "1" is excluded from the timer-driven
reminder selection and from the browse selection, whatever its other fields. -/
theorem claim_C5_ignore_supremacy (items gd : List Item) (m y : String) (i : Item)
    (h : i.ignore = "1") :
    i ∉ modeAItems items ∧ i ∉ scheduleItems gd m y := by
  constructor
  · intro hmem
    have hv := (List.mem_filter.mp hmem).2
    simp [validNotify, h] at hv
  · intro hmem
    have hv := (List.mem_filter.mp hmem).2
    simp [h] at hv

/-- A concrete ignored item is selected by neither path. -/
theorem claim_C5_witness :
    exIgnored ∉ modeAItems [exIgnored]
    ∧ exIgnored ∉ scheduleItems [exIgnored] "All" "All" :=
  claim_C5_ignore_supremacy [exIgnored] [exIgnored] "All" "All" exIgnored rfl

/-- C8: browse filters are compared case-insensitively, the browse output is
exactly the items with ignore "0" whose month and year match the (possibly
"All") filters, and the notification flags play no part. -/
theorem claim_C8_browse_filter :
    (∀ cache g m1 y1 m2 y2, jsToLower m1 = jsToLower m2 → jsToLower y1 = jsToLower y2 →
        createScheduleEmbeds cache g m1 y1 = createScheduleEmbeds cache g m2 y2)
    ∧ (∀ cache g m y, createScheduleEmbeds cache g m y
        = (scheduleItems (lookupCache g cache) m y).map embedOf)
    ∧ (∀ gd m y i, i ∈ scheduleItems gd m y
        ↔ i ∈ gd ∧ i.ignore = "0"
            ∧ (jsToLower m = "all" ∨ jsToLower i.month = jsToLower m)
            ∧ (jsToLower y = "all" ∨ jsToLower i.year = jsToLower y))
    ∧ (∀ gd m y i, i.ignore = "0" ∨ i.ignore = "1" →
        (i ∈ scheduleItems gd m y
          ↔ i ∈ gd ∧ ¬(i.ignore = "1")
              ∧ (jsToLower m = "all" ∨ jsToLower i.month = jsToLower m)
              ∧ (jsToLower y = "all" ∨ jsToLower i.year = jsToLower y))) := by
  have hmem : ∀ (gd : List Item) (m y : String) (i : Item), i ∈ scheduleItems gd m y
      ↔ i ∈ gd ∧ i.ignore = "0"
          ∧ (jsToLower m = "all" ∨ jsToLower i.month = jsToLower m)
          ∧ (jsToLower y = "all" ∨ jsToLower i.year = jsToLower y) := by
    intro gd m y i
    rw [scheduleItems_eq_filter]
    simp [List.mem_filter, and_assoc]
  refine ⟨?_, createScheduleEmbeds_eq, hmem, ?_⟩
  · intro cache g m1 y1 m2 y2 hm hy
    simp only [createScheduleEmbeds, hm, hy]
  · intro gd m y i hig
    rw [hmem]
    rcases hig with hig | hig
    · simp [hig]
    · simp [hig]

/-- Month filters differing only in case give identical browse output. -/
theorem claim_C8_witness :
    createScheduleEmbeds [("G1", [exBrowse])] "G1" "January" "All"
      = createScheduleEmbeds [("G1", [exBrowse])] "G1" "january" "ALL" :=
  claim_C8_browse_filter.1 [("G1", [exBrowse])] "G1" "January" "All" "january" "ALL"
    (by decide) (by decide)

/-- C9: the payload color is the fixed case-insensitive status table —
pending e82020, draft e8db20, complete 63e820, anything else e8db20 — and
the rendered embed always carries exactly that color. -/
theorem claim_C9_status_color :
    (∀ s, jsToLower s = "pending" → getStatusColor s = "e82020")
    ∧ (∀ s, jsToLower s = "draft" → getStatusColor s = "e8db20")
    ∧ (∀ s, jsToLower s = "complete" → getStatusColor s = "63e820")
    ∧ (∀ s, jsToLower s ≠ "pending" → jsToLower s ≠ "draft" → jsToLower s ≠ "complete" →
        getStatusColor s = "e8db20")
    ∧ (∀ item, (embedOf item).color = getStatusColor item.status) := by
  refine ⟨?_, ?_, ?_, ?_, fun _ => rfl⟩
  · intro s h
    unfold getStatusColor
    rw [h]
    decide
  · intro s h
    unfold getStatusColor
    rw [h]
    decide
  · intro s h
    unfold getStatusColor
    rw [h]
    decide
  · intro s h1 h2 h3
    unfold getStatusColor
    rw [if_neg h1, if_neg h2, if_neg h3]

/-- Concrete colors for a pending and an unknown status. -/
theorem claim_C9_witness :
    getStatusColor "Pending" = "e82020" ∧ getStatusColor "unknown" = "e8db20" :=
  ⟨claim_C9_status_color.1 "Pending" (by decide),
   claim_C9_status_color.2.2.2.1 "unknown" (by decide) (by decide) (by decide)⟩

end SponsorBot.Part000

namespace SponsorBot.IndexV1

/-! ### Claims settled on the index.js variant -/

/-- C4: a refresh of the index.js variant whose data holds a row lacking the
status cell throws mid-loop and leaves a cache that is neither the old one
nor a full replacement — the old tenant G0 is gone and only the row before
the bad one survives -- contradicting the replace-atomically-or-keep policy. -/
theorem claim_C4_torn_refresh :
    fetchIx exOldCache (some exBadRows) = [("G1", [exNewItem])]
    ∧ fetchIx exOldCache (some exBadRows) ≠ exOldCache
    ∧ lookupCache "G0" (fetchIx exOldCache (some exBadRows)) = []
    ∧ lookupCache "G1" (fetchIx exOldCache (some exBadRows)) = [exNewItem] := by
  refine ⟨by decide, by decide, by decide, by decide⟩

/-- C6: on a row with guild and channel present but the status cell absent,
the index.js normalizer throws (TypeError on `undefined.trim()`) while the
part_000 normalizer of the same row yields one record with every documented
default (sponsor blank gives N/A, absent flags give the empty string). -/
theorem claim_C6_missing_cell_throws :
    rowIx exHeaderC6 0 exRowC6 = .error ()
    ∧ SponsorBot.Part000.normalizeRow exHeaderC6 0 exRowC6
        = some ("G1",
            { creator := "Unknown Creator", channel := "general", sponsor := "N/A",
              draftDeadline := "N/A", uploadDeadline := "N/A", month := "N/A",
              year := "N/A", shouldNotify := "1", status := "", statusSend := "",
              statusMessage := "", ignore := "", type := "", currentRowNumber := 0 }) :=
  ⟨rfl, by decide⟩

end SponsorBot.IndexV1

namespace SponsorBot.SpecModel

/-! ### Lemmas about the destination grouping -/

theorem mkGroups_keys_nodup (p : ItemR → Bool) (key : ItemR → String) (due : List ItemR) :
    ((mkGroups p key due).map Prod.fst).Nodup := by
  unfold mkGroups
  rw [List.map_map]
  show (List.map (fun k : String => k) (((due.filter p).map key).dedup)).Nodup
  rw [List.map_id']
  exact List.nodup_dedup _

theorem mkGroups_contents {p : ItemR → Bool} {key : ItemR → String} {due : List ItemR}
    {k : String} {gl : List ItemR} (h : (k, gl) ∈ mkGroups p key due) :
    gl = due.filter (fun i => p i && key i == k) := by
  unfold mkGroups at h
  obtain ⟨a, _, heq⟩ := List.mem_map.mp h
  injection heq with h1 h2
  subst h1
  exact h2.symm

theorem groupItems_mkGroups (p : ItemR → Bool) (key : ItemR → String) (due : List ItemR)
    (i : ItemR) :
    i ∈ groupItems (mkGroups p key due) ↔ i ∈ due ∧ p i = true := by
  unfold groupItems mkGroups
  rw [List.map_map]
  constructor
  · intro h
    obtain ⟨l, hl, hil⟩ := List.mem_flatten.mp h
    obtain ⟨a, _, heq⟩ := List.mem_map.mp hl
    rw [← heq] at hil
    have hm := List.mem_filter.mp hil
    refine ⟨hm.1, ?_⟩
    have h2 := hm.2
    simp only [Bool.and_eq_true] at h2
    exact h2.1
  · rintro ⟨hdue, hp⟩
    apply List.mem_flatten.mpr
    refine ⟨due.filter (fun j => p j && key j == key i), ?_, ?_⟩
    · apply List.mem_map.mpr
      refine ⟨key i, ?_, rfl⟩
      apply List.mem_dedup.mpr
      apply List.mem_map.mpr
      exact ⟨i, List.mem_filter.mpr ⟨hdue, hp⟩, rfl⟩
    · exact List.mem_filter.mpr ⟨hdue, by simp [hp]⟩

/-! ### Claims settled on the spec-modelled selector -/

/-- C1: outside the monthly-override window, Mode A selects an item iff it
satisfies shouldNotify, not-ignored and statusArmed and one of its reminder
dates equals the reference date formatted M/D/YYYY. -/
theorem claim_C1_date_gate (latch : Bool) (t : DateMDY) (items : List ItemR) (i : ItemR)
    (h : overrideFires latch t = false) :
    i ∈ (modeASelect latch t items).1
      ↔ i ∈ items ∧ baseEligible i = true
          ∧ (i.reminderDate = formatMDY t ∨ i.reminderDate2 = formatMDY t) := by
  simp [modeASelect, h, List.mem_filter, dueMatch, and_assoc]

/-- A matching item on 4/10/2025 is selected with the latch already set. -/
theorem claim_C1_witness :
    exDue ∈ (modeASelect true ⟨4, 10, 2025⟩ [exDue]).1 :=
  (claim_C1_date_gate true ⟨4, 10, 2025⟩ [exDue] exDue (by decide)).mpr (by decide)

/-- C2: on the 1st or 2nd with the latch unset, Mode A returns every item
satisfying conditions (1)-(3) regardless of reminder dates and sets the
latch; every later call of the same run then applies strict date matching
and keeps the latch set, so the override never fires twice. -/
theorem claim_C2_override_latch (t : DateMDY) (items : List ItemR)
    (h : t.day = 1 ∨ t.day = 2) :
    (modeASelect false t items).1 = items.filter baseEligible
    ∧ (modeASelect false t items).2 = true
    ∧ (∀ t2 items2,
        (modeASelect (modeASelect false t items).2 t2 items2).1
          = items2.filter (fun i => baseEligible i && dueMatch t2 i)
        ∧ (modeASelect (modeASelect false t items).2 t2 items2).2 = true) := by
  have hov : overrideFires false t = true := by
    rcases h with h | h <;> simp [overrideFires, h]
  refine ⟨by simp [modeASelect, hov], by simp [modeASelect, hov], ?_⟩
  intro t2 items2
  have hov2 : (modeASelect false t items).2 = true := by simp [modeASelect, hov]
  rw [hov2]
  have hno : overrideFires true t2 = false := by simp [overrideFires]
  exact ⟨by simp [modeASelect, hno], by simp [modeASelect, hno]⟩

/-- On the 1st the override admits an item with no matching reminder date. -/
theorem claim_C2_witness :
    (modeASelect false ⟨5, 1, 2026⟩ [exDue]).1 = [exDue] := by
  have h := claim_C2_override_latch ⟨5, 1, 2026⟩ [exDue] (Or.inl rfl)
  rw [h.1]
  decide

/-- C3: channel-post items are grouped by destination channel and
private-message items by creator, each destination appearing once, the two
group families together cover exactly the due items of their mode, and no
item occurs in both families. -/
theorem claim_C3_delivery_groups (due : List ItemR) :
    ((channelGroups due).map Prod.fst).Nodup
    ∧ ((dmGroups due).map Prod.fst).Nodup
    ∧ (∀ k gl, (k, gl) ∈ channelGroups due →
        gl = due.filter (fun i => chanPost i && i.destinationChannel == k))
    ∧ (∀ k gl, (k, gl) ∈ dmGroups due →
        gl = due.filter (fun i => privMsg i && i.creatorId == k))
    ∧ (∀ i, i ∈ groupItems (channelGroups due)
        ↔ i ∈ due ∧ i.reminderDeliveryMode = "channel post")
    ∧ (∀ i, i ∈ groupItems (dmGroups due)
        ↔ i ∈ due ∧ i.reminderDeliveryMode = "private message")
    ∧ (∀ i, ¬(i ∈ groupItems (channelGroups due) ∧ i ∈ groupItems (dmGroups due))) := by
  have hc : ∀ i, i ∈ groupItems (channelGroups due)
      ↔ i ∈ due ∧ i.reminderDeliveryMode = "channel post" := by
    intro i
    rw [channelGroups, groupItems_mkGroups]
    simp [chanPost]
  have hd : ∀ i, i ∈ groupItems (dmGroups due)
      ↔ i ∈ due ∧ i.reminderDeliveryMode = "private message" := by
    intro i
    rw [dmGroups, groupItems_mkGroups]
    simp [privMsg]
  refine ⟨mkGroups_keys_nodup _ _ _, mkGroups_keys_nodup _ _ _,
    fun k gl h => mkGroups_contents h, fun k gl h => mkGroups_contents h, hc, hd, ?_⟩
  intro i ⟨h1, h2⟩
  have e1 := ((hc i).mp h1).2
  have e2 := ((hd i).mp h2).2
  have e3 : ("channel post" : String) = "private message" := e1.symm.trans e2
  exact absurd e3 (by decide)

/-- A concrete channel-post item lands in the channel groups only. -/
theorem claim_C3_witness :
    exDue ∈ groupItems (channelGroups [exDue, exPM])
    ∧ exDue ∉ groupItems (dmGroups [exDue, exPM]) := by
  have h := claim_C3_delivery_groups [exDue, exPM]
  constructor
  · exact (h.2.2.2.2.1 exDue).mpr (by constructor; decide; rfl)
  · intro hmem
    exact h.2.2.2.2.2.2 exDue
      ⟨(h.2.2.2.2.1 exDue).mpr (by constructor; decide; rfl), hmem⟩

end SponsorBot.SpecModel
